import Mathlib

/-!
# Gene-symbol resolution engine: a shallow embedding

This file embeds the entity-resolution core of `alphafold_core/data/fetcher.py`
(`SearchCriteria`, `UniProtFetcher._build_search_query`,
`UniProtFetcher._extract_protein_info`, `UniProtFetcher._search_with_strategy`,
`UniProtFetcher.search_by_gene_name_robust`,
`UniProtFetcher.search_multiple_genes_robust` and the two legacy wrappers)
in Lean, and proves or refutes the specified properties of the waterfall
strategy planner, the per-gene resolution algorithm, and the batch loop.

The HTTP transport (`session.get`) is modelled as an environment: a function
from the index of the physical call to the response the application code
observes.  Everything the Python code does with a response is embedded
faithfully; logging, progress bars and `time.sleep` pacing are observational
only and are dropped.  The self-recursive retry on HTTP 429 is embedded with
an explicit fuel argument: the `stillRetrying` outcome means the Python code
would issue yet another retry beyond the allotted fuel.
-/

namespace UniProt

/-- Embeds the `SearchCriteria` dataclass (fetcher.py lines 21-28).
`organism_id` is `Optional[str]` in the source. -/
structure SearchCriteria where
  organism_id : Option String
  reviewed_only : Bool
  exact_match : Bool
  max_results : Nat
  include_synonyms : Bool
deriving Repr, DecidableEq, Inhabited

/-- The dataclass defaults: `SearchCriteria()` in Python. -/
def defaultCriteria : SearchCriteria :=
  { organism_id := some "9606"
    reviewed_only := true
    exact_match := true
    max_results := 10
    include_synonyms := true }

/-- One element of the `results` array of a search response, flattened to the
access paths the Python code actually reads.  `genesHeadGeneNameValue` stands
for the chain `genes[0].geneName.value` (absent when any link is missing);
`recommendedFullNameValue` for
`proteinDescription.recommendedName.fullName.value`;
`reviewed` for the `reviewed` key read by `r.get("reviewed", False)`;
`proteinNameValue` for `proteinName.value`. -/
structure RawResult where
  primaryAccession : Option String
  uniProtkbId : Option String
  genesHeadGeneNameValue : Option String
  recommendedFullNameValue : Option String
  sequenceValue : Option String
  organismScientificName : Option String
  entryType : Option String
  reviewed : Option Bool
  proteinNameValue : Option String
deriving Repr, DecidableEq, Inhabited

/-- The dictionary built by `_extract_protein_info` (lines 109-133). -/
structure ProteinInfo where
  accession : Option String
  id : Option String
  gene_names : String
  protein_name : String
  sequence : Option String
  organism : String
  reviewed : Bool
  entry_type : String
deriving Repr, DecidableEq, Inhabited

/-- The dictionary returned by `_search_with_strategy` on a successful
response: the `_extract_protein_info` fields plus the multiple-results
annotations added at lines 228-238.  An `Option` field is `none` when the
Python dict lacks the key (single-result case). -/
structure AnnotatedProteinInfo where
  info : ProteinInfo
  multiple_results_found : Bool
  total_results : Nat
  selected_result : String
  all_accessions : Option (List (Option String))
  all_protein_names : Option (List String)
deriving Repr, DecidableEq, Inhabited

/-- Embeds `_build_search_query` (lines 89-107).  Python truthiness of
`criteria.organism_id` makes both `None` and the empty string skip the
organism clause. -/
def build_search_query (gene_name : String) (criteria : SearchCriteria) : String :=
  let gene_part : List String :=
    if criteria.exact_match then ["gene_exact:" ++ gene_name]
    else ["gene:" ++ gene_name]
  let organism_part : List String :=
    match criteria.organism_id with
    | some oid => if oid = "" then [] else ["organism_id:" ++ oid]
    | none => []
  let reviewed_part : List String :=
    if criteria.reviewed_only then ["reviewed:true"] else []
  String.intercalate " AND " (gene_part ++ organism_part ++ reviewed_part)

/-- Embeds `_extract_protein_info` (lines 109-133). -/
def extract_protein_info (result : RawResult) (gene_name : String) : ProteinInfo :=
  { accession := result.primaryAccession
    id := result.uniProtkbId
    gene_names := result.genesHeadGeneNameValue.getD gene_name
    protein_name := result.recommendedFullNameValue.getD "Unknown"
    sequence := result.sequenceValue
    organism := result.organismScientificName.getD "Unknown"
    reviewed := (result.entryType.getD "").startsWith "UniProtKB reviewed"
    entry_type := result.entryType.getD "Unknown" }

/-- The per-candidate reviewed test `r.get("reviewed", False)` used at
lines 220 and 232. -/
def reviewedFlag (r : RawResult) : Bool := r.reviewed.getD false

/-- Embeds the `response.ok` branch of `_search_with_strategy`
(lines 211-240): empty `results` gives `None`; with more than one result the
candidate list is narrowed to the reviewed entries when any exist; the first
remaining candidate is extracted, and the multiple-results annotations are
attached from the *original* `results` list.  (The `[]` match arm is
unreachable: the narrowed list is never empty when `results` is nonempty.) -/
def process_ok_response (results : List RawResult) (gene_name : String) :
    Option AnnotatedProteinInfo :=
  if results.isEmpty then none
  else
    let narrowed :=
      if 1 < results.length then
        let reviewed_results := results.filter reviewedFlag
        if reviewed_results.isEmpty then results else reviewed_results
      else results
    match narrowed with
    | [] => none
    | result :: _ =>
      let protein_info := extract_protein_info result gene_name
      if 1 < results.length then
        some { info := protein_info
               multiple_results_found := true
               total_results := results.length
               selected_result :=
                 if results.any reviewedFlag then "First reviewed entry"
                 else "First result"
               all_accessions := some (results.map (fun r => r.primaryAccession))
               all_protein_names :=
                 some (results.map (fun r => r.proteinNameValue.getD "Unknown")) }
      else
        some { info := protein_info
               multiple_results_found := false
               total_results := 1
               selected_result := "Single result"
               all_accessions := none
               all_protein_names := none }

/-- What the application code observes from one physical `session.get` call:
a JSON body with a `results` array (`response.ok`), an HTTP 429 with an
optional `Retry-After` header, some other error status, or a raised
`requests` exception (timeout / connection failure / the session adapter
exhausting its own urllib3 retry budget). -/
inductive HttpResponse where
  | ok (results : List RawResult)
  | rateLimited (retryAfter : Option Nat)
  | otherStatus (code : Nat)
  | raised
deriving Repr

/-- The transport environment: the response observed by the `n`-th physical
call of a run (calls are counted across strategies and genes). -/
def Server := Nat → HttpResponse

/-- Outcome of one `_search_with_strategy` call.  `finished r` is a normal
return (`r = none` is Python `None`); `raised` is an uncaught exception from
`session.get`; `stillRetrying` is the fuel artifact: the source's 429 handler
(lines 242-246) retries by unbounded self-recursion, so with this much fuel
the call has not yet terminated and would issue another retry. -/
inductive StrategyOutcome where
  | finished (result : Option AnnotatedProteinInfo)
  | raised
  | stillRetrying
deriving Repr, DecidableEq

/-- Embeds `_search_with_strategy` (lines 193-250).  The trace accumulates
the query string of every physical call, so `trace.length` is the number of
transport invocations so far and indexes the server.  On 429 the source
sleeps and re-invokes itself with the identical query; here each such retry
consumes one unit of fuel. -/
def search_with_strategy (server : Server) (gene_name : String)
    (criteria : SearchCriteria) : Nat → List String → StrategyOutcome × List String
  | 0, trace =>
    let query := build_search_query gene_name criteria
    match server trace.length with
    | HttpResponse.ok results =>
        (StrategyOutcome.finished (process_ok_response results gene_name), trace ++ [query])
    | HttpResponse.rateLimited _ => (StrategyOutcome.stillRetrying, trace ++ [query])
    | HttpResponse.otherStatus _ => (StrategyOutcome.finished none, trace ++ [query])
    | HttpResponse.raised => (StrategyOutcome.raised, trace ++ [query])
  | fuel + 1, trace =>
    let query := build_search_query gene_name criteria
    match server trace.length with
    | HttpResponse.ok results =>
        (StrategyOutcome.finished (process_ok_response results gene_name), trace ++ [query])
    | HttpResponse.rateLimited _ =>
        search_with_strategy server gene_name criteria fuel (trace ++ [query])
    | HttpResponse.otherStatus _ => (StrategyOutcome.finished none, trace ++ [query])
    | HttpResponse.raised => (StrategyOutcome.raised, trace ++ [query])

/-- The four-strategy waterfall built at lines 148-177.  Each strategy copies
the base criteria's `organism_id` and `max_results`; `include_synonyms` is
left at its dataclass default `True`. -/
def strategies (criteria : SearchCriteria) : List SearchCriteria :=
  [ { organism_id := criteria.organism_id, reviewed_only := true, exact_match := true,
      max_results := criteria.max_results, include_synonyms := true },
    { organism_id := criteria.organism_id, reviewed_only := false, exact_match := true,
      max_results := criteria.max_results, include_synonyms := true },
    { organism_id := criteria.organism_id, reviewed_only := true, exact_match := false,
      max_results := criteria.max_results, include_synonyms := true },
    { organism_id := criteria.organism_id, reviewed_only := false, exact_match := false,
      max_results := criteria.max_results, include_synonyms := true } ]

/-- Outcome of `search_by_gene_name_robust`: a normal return, or the fuel
artifact propagated from a strategy stuck in the 429 retry loop. -/
inductive RobustOutcome where
  | finished (result : Option AnnotatedProteinInfo)
  | stillRetrying
deriving Repr, DecidableEq

/-- The strategy loop at lines 179-191: try each strategy in order; a truthy
result returns immediately; `None` falls through; an exception is caught and
falls through (`except Exception ... continue`). -/
def try_strategies (server : Server) (gene_name : String) (fuel : Nat) :
    List SearchCriteria → List String → RobustOutcome × List String
  | [], trace => (RobustOutcome.finished none, trace)
  | strategy :: rest, trace =>
    match search_with_strategy server gene_name strategy fuel trace with
    | (StrategyOutcome.finished (some info), trace') =>
        (RobustOutcome.finished (some info), trace')
    | (StrategyOutcome.finished none, trace') =>
        try_strategies server gene_name fuel rest trace'
    | (StrategyOutcome.raised, trace') =>
        try_strategies server gene_name fuel rest trace'
    | (StrategyOutcome.stillRetrying, trace') => (RobustOutcome.stillRetrying, trace')

/-- Embeds `search_by_gene_name_robust` (lines 135-191): default the
criteria when absent, build the waterfall, run it. -/
def search_by_gene_name_robust (server : Server) (gene_name : String)
    (criteria : Option SearchCriteria) (fuel : Nat) (trace : List String) :
    RobustOutcome × List String :=
  let c := criteria.getD defaultCriteria
  try_strategies server gene_name fuel (strategies c) trace

/-- Embeds the legacy `search_by_gene_name` (lines 252-255): robust search
with explicit default criteria. -/
def search_by_gene_name (server : Server) (gene_name : String)
    (fuel : Nat) (trace : List String) : RobustOutcome × List String :=
  search_by_gene_name_robust server gene_name (some defaultCriteria) fuel trace

/-- The whitespace set stripped by Python `str.strip()` on ASCII input. -/
def isPythonSpace (c : Char) : Bool :=
  c = ' ' || c = '\t' || c = '\n' || c = '\r' || c = '\x0b' || c = '\x0c'

/-- Python `str.strip()`: drop leading and trailing whitespace. -/
def pyStrip (s : String) : String :=
  String.mk (((s.data.dropWhile isPythonSpace).reverse.dropWhile isPythonSpace).reverse)

/-- One value of the batch `results` dict: either a protein-info dict or the
error dict `\x7b"error": "Gene not found after all strategies"\x7d` built at
line 281. -/
inductive GeneEntry where
  | found (info : AnnotatedProteinInfo)
  | errorEntry (msg : String)
deriving Repr, DecidableEq

/-- The message of the not-found error dict at line 281. -/
def notFoundMsg : String := "Gene not found after all strategies"

/-- The per-gene loop of `search_multiple_genes_robust` (lines 272-291).
`results` is the insertion-ordered dict modelled as an association list;
a gene is processed only when its stripped name is truthy and not yet a key.
Progress printing, tqdm and the `failed_queries` list feed logging only and
are dropped.  A gene stuck in the 429 retry loop makes the whole batch
`none` (fuel artifact). -/
def batch_loop (server : Server) (criteria : SearchCriteria) (fuel : Nat) :
    List String → List (String × GeneEntry) → List String →
    Option (List (String × GeneEntry)) × List String
  | [], results, trace => (some results, trace)
  | g :: rest, results, trace =>
    let gene_name := pyStrip g
    if gene_name ≠ "" ∧ gene_name ∉ results.map Prod.fst then
      match search_by_gene_name_robust server gene_name (some criteria) fuel trace with
      | (RobustOutcome.finished (some protein_info), trace') =>
          batch_loop server criteria fuel rest
            (results ++ [(gene_name, GeneEntry.found protein_info)]) trace'
      | (RobustOutcome.finished none, trace') =>
          batch_loop server criteria fuel rest
            (results ++ [(gene_name, GeneEntry.errorEntry notFoundMsg)]) trace'
      | (RobustOutcome.stillRetrying, trace') => (none, trace')
    else
      batch_loop server criteria fuel rest results trace

/-- Embeds `search_multiple_genes_robust` (lines 257-296). -/
def search_multiple_genes_robust (server : Server) (gene_names : List String)
    (criteria : Option SearchCriteria) (fuel : Nat) :
    Option (List (String × GeneEntry)) × List String :=
  let c := criteria.getD defaultCriteria
  batch_loop server c fuel gene_names [] []

/-- Embeds the legacy `search_multiple_genes` (lines 298-300). -/
def search_multiple_genes (server : Server) (gene_names : List String)
    (fuel : Nat) : Option (List (String × GeneEntry)) × List String :=
  search_multiple_genes_robust server gene_names (some defaultCriteria) fuel

/-! ## Sample records and servers used by witnesses and counterexamples -/

/-- An unreviewed candidate with accession P1. -/
def sampleA : RawResult :=
  { primaryAccession := some "P1"
    uniProtkbId := none
    genesHeadGeneNameValue := none
    recommendedFullNameValue := none
    sequenceValue := none
    organismScientificName := none
    entryType := none
    reviewed := some false
    proteinNameValue := none }

/-- An unreviewed candidate with accession P2. -/
def sampleB : RawResult := { sampleA with primaryAccession := some "P2" }

/-- A reviewed candidate with accession P3. -/
def sampleRev : RawResult :=
  { sampleA with
    primaryAccession := some "P3"
    reviewed := some true
    entryType := some "UniProtKB reviewed (Swiss-Prot)" }

/-- A server whose every response is `ok` with an empty results array. -/
def emptyServer : Server := fun _ => HttpResponse.ok []

/-- A server that answers HTTP 429 with no Retry-After header, forever. -/
def always429 : Server := fun _ => HttpResponse.rateLimited none

/-! ## Structure lemmas about the resolution engine -/

/-- The spec-side reading of the reviewed narrowing: restrict to reviewed
entries exactly when some entry is reviewed. -/
def restrictToReviewed (results : List RawResult) : List RawResult :=
  if results.any reviewedFlag then results.filter reviewedFlag else results

/-- The source's guarded narrowing (applied only when there are at least two
candidates, falling back to the original list when no candidate is reviewed)
agrees with `restrictToReviewed` on every candidate list. -/
lemma narrowed_eq_restrictToReviewed (results : List RawResult) :
    (if 1 < results.length then
       (if (results.filter reviewedFlag).isEmpty then results
        else results.filter reviewedFlag)
     else results) = restrictToReviewed results := by
  unfold restrictToReviewed
  match results with
  | [] => simp
  | [r] =>
    simp only [List.length_singleton, lt_irrefl, if_false]
    by_cases hr : reviewedFlag r <;> simp [List.filter, List.any, hr]
  | r1 :: r2 :: rs =>
    have hlen : 1 < (r1 :: r2 :: rs).length := by simp
    simp only [hlen, if_true]
    rcases hany : (r1 :: r2 :: rs).any reviewedFlag with _ | _
    · have : (r1 :: r2 :: rs).filter reviewedFlag = [] := by
        rw [List.filter_eq_nil_iff]
        intro a ha
        have := (List.any_eq_false).mp hany a ha
        simpa using this
      simp [this]
    · have : (r1 :: r2 :: rs).filter reviewedFlag ≠ [] := by
        intro hnil
        rcases (List.any_eq_true).mp hany with ⟨a, ha, hpa⟩
        have : a ∈ (r1 :: r2 :: rs).filter reviewedFlag :=
          List.mem_filter.mpr ⟨ha, hpa⟩
        simp [hnil] at this
      simp [List.isEmpty_iff, this]

/-- `restrictToReviewed` never empties a nonempty candidate list. -/
lemma restrictToReviewed_ne_nil (results : List RawResult) (h : results ≠ []) :
    restrictToReviewed results ≠ [] := by
  unfold restrictToReviewed
  split
  · next hany =>
    intro hnil
    rcases (List.any_eq_true).mp hany with ⟨a, ha, hpa⟩
    have : a ∈ results.filter reviewedFlag := List.mem_filter.mpr ⟨ha, hpa⟩
    simp [hnil] at this
  · exact h

/-- The head of the restricted list is one of the original candidates. -/
lemma restrictToReviewed_headI_mem (results : List RawResult) (h : results ≠ []) :
    (restrictToReviewed results).headI ∈ results := by
  have hne := restrictToReviewed_ne_nil results h
  obtain ⟨hd, tl, hcons⟩ := List.exists_cons_of_ne_nil hne
  have hmem : hd ∈ restrictToReviewed results := by
    rw [hcons]; exact List.mem_cons_self hd tl
  rw [hcons]
  simp only [List.headI]
  unfold restrictToReviewed at hmem
  by_cases hany : results.any reviewedFlag
  · rw [if_pos hany] at hmem
    exact (List.mem_filter.mp hmem).1
  · rwa [if_neg hany] at hmem

/-- Full normal form of `process_ok_response` on a nonempty candidate list:
the selected candidate is the head of the restricted list, the ambiguity
marker is exactly `1 < results.length`, and in the multiple-results case the
annotations are drawn from the original list. -/
lemma process_ok_response_of_ne_nil (results : List RawResult) (gene_name : String)
    (h : results ≠ []) :
    process_ok_response results gene_name = some
      { info := extract_protein_info (restrictToReviewed results).headI gene_name
        multiple_results_found := decide (1 < results.length)
        total_results := if 1 < results.length then results.length else 1
        selected_result :=
          if 1 < results.length then
            (if results.any reviewedFlag then "First reviewed entry" else "First result")
          else "Single result"
        all_accessions :=
          if 1 < results.length then
            some (results.map (fun r => r.primaryAccession))
          else none
        all_protein_names :=
          if 1 < results.length then
            some (results.map (fun r => r.proteinNameValue.getD "Unknown"))
          else none } := by
  unfold process_ok_response
  have hempty : results.isEmpty = false := by simpa [List.isEmpty_iff] using h
  rw [hempty]
  simp only [Bool.false_eq_true, if_false]
  rw [narrowed_eq_restrictToReviewed]
  have hne := restrictToReviewed_ne_nil results h
  obtain ⟨hd, tl, hcons⟩ := List.exists_cons_of_ne_nil hne
  rw [hcons]
  by_cases hlen : 1 < results.length <;> simp [hlen, List.headI]

/-! ## Run lemmas about the transport and the waterfall -/

/-- An `ok` response terminates a strategy in one physical call, whatever the
fuel: the 429 retry loop is not entered. -/
lemma search_with_strategy_ok (server : Server) (g : String) (c : SearchCriteria)
    (fuel : Nat) (trace : List String) (res : List RawResult)
    (h : server trace.length = HttpResponse.ok res) :
    search_with_strategy server g c fuel trace =
      (StrategyOutcome.finished (process_ok_response res g),
       trace ++ [build_search_query g c]) := by
  cases fuel <;> simp [search_with_strategy, h]

/-- Against a server that always returns an empty results array, the strategy
loop walks every strategy in order, issuing exactly one query per strategy,
and ends with a `None` result. -/
lemma try_strategies_empty (server : Server) (g : String) (fuel : Nat)
    (h : ∀ n, server n = HttpResponse.ok []) :
    ∀ (ss : List SearchCriteria) (trace : List String),
      try_strategies server g fuel ss trace =
        (RobustOutcome.finished none,
         trace ++ ss.map (fun s => build_search_query g s)) := by
  intro ss
  induction ss with
  | nil => intro trace; simp [try_strategies]
  | cons s rest ih =>
    intro trace
    have hok := search_with_strategy_ok server g s fuel trace [] (h trace.length)
    have hnone : process_ok_response [] g = none := rfl
    rw [hnone] at hok
    simp [try_strategies, hok, ih]

/-- Against a server that answers 429 forever, one strategy issues `fuel + 1`
identical physical queries and is still retrying when the fuel runs out:
the source's self-recursive 429 handler has no retry ceiling. -/
lemma search_with_strategy_rate_limited (server : Server) (g : String)
    (c : SearchCriteria) (ra : Nat → Option Nat)
    (h : ∀ n, server n = HttpResponse.rateLimited (ra n)) :
    ∀ (fuel : Nat) (trace : List String),
      search_with_strategy server g c fuel trace =
        (StrategyOutcome.stillRetrying,
         trace ++ List.replicate (fuel + 1) (build_search_query g c)) := by
  intro fuel
  induction fuel with
  | zero => intro trace; simp [search_with_strategy, h trace.length]
  | succ n ih =>
    intro trace
    rw [search_with_strategy, h trace.length]
    rw [ih (trace ++ [build_search_query g c])]
    simp [List.replicate_succ]

/-- The first stuck strategy propagates: a perpetually rate-limiting server
keeps the whole per-gene resolution inside the first strategy's retry loop,
with `fuel + 1` identical physical calls already issued. -/
lemma robust_rate_limited (server : Server) (g : String) (c : SearchCriteria)
    (ra : Nat → Option Nat) (fuel : Nat) (trace : List String)
    (h : ∀ n, server n = HttpResponse.rateLimited (ra n)) :
    search_by_gene_name_robust server g (some c) fuel trace =
      (RobustOutcome.stillRetrying,
       trace ++ List.replicate (fuel + 1)
         (build_search_query g
           { organism_id := c.organism_id, reviewed_only := true, exact_match := true,
             max_results := c.max_results, include_synonyms := true })) := by
  unfold search_by_gene_name_robust strategies
  simp only [Option.getD_some]
  rw [try_strategies, search_with_strategy_rate_limited server g _ ra h fuel trace]

/-- Genes that strip to the blank string are skipped by the batch loop: no
entry is added and no physical call is made. -/
lemma batch_loop_blank (server : Server) (c : SearchCriteria) (fuel : Nat) :
    ∀ (genes : List String) (results : List (String × GeneEntry)) (trace : List String),
      (∀ g ∈ genes, pyStrip g = "") →
      batch_loop server c fuel genes results trace = (some results, trace) := by
  intro genes
  induction genes with
  | nil => intro results trace _; rfl
  | cons g rest ih =>
    intro results trace hblank
    have hg : pyStrip g = "" := hblank g (List.mem_cons_self g rest)
    rw [batch_loop]
    rw [if_neg (by simp [hg])]
    exact ih results trace (fun x hx => hblank x (List.mem_cons_of_mem g hx))

/-- The key sequence the batch loop is specified to produce: the stripped
gene names that are nonblank and not yet seen, in first-seen order. -/
def dedupedGeneKeys : List String → List String → List String
  | [], _ => []
  | g :: rest, seen =>
    if pyStrip g ≠ "" ∧ pyStrip g ∉ seen then
      pyStrip g :: dedupedGeneKeys rest (seen ++ [pyStrip g])
    else dedupedGeneKeys rest seen

/-- `dedupedGeneKeys` avoids the seen set and never repeats a key. -/
lemma dedupedGeneKeys_spec : ∀ (genes seen : List String),
    (∀ x ∈ dedupedGeneKeys genes seen, x ∉ seen) ∧
      (dedupedGeneKeys genes seen).Nodup := by
  intro genes
  induction genes with
  | nil => intro seen; simp [dedupedGeneKeys]
  | cons g rest ih =>
    intro seen
    by_cases hcond : pyStrip g ≠ "" ∧ pyStrip g ∉ seen
    · rw [dedupedGeneKeys, if_pos hcond]
      constructor
      · intro x hx
        rcases List.mem_cons.mp hx with rfl | hx'
        · exact hcond.2
        · intro hxseen
          exact (ih (seen ++ [pyStrip g])).1 x hx' (List.mem_append_left _ hxseen)
      · refine List.nodup_cons.mpr ⟨?_, (ih (seen ++ [pyStrip g])).2⟩
        intro hmem
        exact (ih (seen ++ [pyStrip g])).1 _ hmem
          (List.mem_append_right _ (List.mem_singleton_self _))
    · rw [dedupedGeneKeys, if_neg hcond]
      exact ih seen

/-- Whenever the batch loop completes, the keys of the final report extend
the keys of the accumulator by exactly the deduplicated nonblank stripped
gene names, in first-seen input order. -/
lemma batch_loop_keys (server : Server) (c : SearchCriteria) (fuel : Nat) :
    ∀ (genes : List String) (results : List (String × GeneEntry))
      (trace : List String) (res : List (String × GeneEntry)) (trace' : List String),
      batch_loop server c fuel genes results trace = (some res, trace') →
      res.map Prod.fst =
        results.map Prod.fst ++ dedupedGeneKeys genes (results.map Prod.fst) := by
  intro genes
  induction genes with
  | nil =>
    intro results trace res trace' h
    rw [batch_loop] at h
    cases h
    simp [dedupedGeneKeys]
  | cons g rest ih =>
    intro results trace res trace' h
    rw [batch_loop] at h
    by_cases hcond : pyStrip g ≠ "" ∧ pyStrip g ∉ results.map Prod.fst
    · rw [if_pos hcond] at h
      rw [dedupedGeneKeys, if_pos hcond]
      rcases hrob : search_by_gene_name_robust server (pyStrip g) (some c) fuel trace
        with ⟨out, tr2⟩
      rw [hrob] at h
      cases out with
      | finished r =>
        cases r with
        | some info =>
          have := ih (results ++ [(pyStrip g, GeneEntry.found info)]) tr2 res trace' h
          simpa [List.append_assoc] using this
        | none =>
          have := ih (results ++ [(pyStrip g, GeneEntry.errorEntry notFoundMsg)]) tr2
            res trace' h
          simpa [List.append_assoc] using this
      | stillRetrying => cases h
    · rw [if_neg hcond] at h
      rw [dedupedGeneKeys, if_neg hcond]
      exact ih results trace res trace' h

/-! ## The claims -/

/-- Claim C4: for base criteria organism 9606, reviewed-only, exact-match,
the first (strictest) strategy applied to gene TP53 yields exactly the query
string "gene_exact:TP53 AND organism_id:9606 AND reviewed:true" — gene
clause, then organism clause, then reviewed clause, AND-joined. -/
theorem claim_C4_first_strategy_query :
    (strategies
        { organism_id := some "9606", reviewed_only := true, exact_match := true,
          max_results := 10, include_synonyms := true }).head? =
      some { organism_id := some "9606", reviewed_only := true, exact_match := true,
             max_results := 10, include_synonyms := true } ∧
    build_search_query "TP53"
        { organism_id := some "9606", reviewed_only := true, exact_match := true,
          max_results := 10, include_synonyms := true } =
      "gene_exact:TP53 AND organism_id:9606 AND reviewed:true" := by
  exact ⟨rfl, rfl⟩

/-- Claim C9: the strategy planner is a pure function of the base criteria
producing exactly 4 strategies in the fixed order (reviewed+exact,
unreviewed+exact, reviewed+fuzzy, unreviewed+fuzzy), each carrying the
base's organism id and max-results; equal bases yield equal waterfalls. -/
theorem claim_C9_planner_fixed_waterfall (c c' : SearchCriteria) (h : c = c') :
    strategies c =
      [ { organism_id := c.organism_id, reviewed_only := true, exact_match := true,
          max_results := c.max_results, include_synonyms := true },
        { organism_id := c.organism_id, reviewed_only := false, exact_match := true,
          max_results := c.max_results, include_synonyms := true },
        { organism_id := c.organism_id, reviewed_only := true, exact_match := false,
          max_results := c.max_results, include_synonyms := true },
        { organism_id := c.organism_id, reviewed_only := false, exact_match := false,
          max_results := c.max_results, include_synonyms := true } ] ∧
    (strategies c).length = 4 ∧ strategies c = strategies c' := by
  subst h
  exact ⟨rfl, rfl, rfl⟩

/-- Claim C9 witness: the planner equations at the default base criteria. -/
theorem claim_C9_witness :
    strategies defaultCriteria =
      [ { organism_id := defaultCriteria.organism_id, reviewed_only := true,
          exact_match := true, max_results := defaultCriteria.max_results,
          include_synonyms := true },
        { organism_id := defaultCriteria.organism_id, reviewed_only := false,
          exact_match := true, max_results := defaultCriteria.max_results,
          include_synonyms := true },
        { organism_id := defaultCriteria.organism_id, reviewed_only := true,
          exact_match := false, max_results := defaultCriteria.max_results,
          include_synonyms := true },
        { organism_id := defaultCriteria.organism_id, reviewed_only := false,
          exact_match := false, max_results := defaultCriteria.max_results,
          include_synonyms := true } ] ∧
    (strategies defaultCriteria).length = 4 ∧
    strategies defaultCriteria = strategies defaultCriteria :=
  claim_C9_planner_fixed_waterfall defaultCriteria defaultCriteria rfl

/-- Claim C10: the legacy single-gene and batch entry points return exactly
the result of the robust operations applied with the default SearchCriteria
(equivalently, with the criteria argument left absent). -/
theorem claim_C10_legacy_equivalence (server : Server) (g : String)
    (genes : List String) (fuel : Nat) (trace : List String) :
    search_by_gene_name server g fuel trace =
      search_by_gene_name_robust server g (some defaultCriteria) fuel trace ∧
    search_by_gene_name server g fuel trace =
      search_by_gene_name_robust server g none fuel trace ∧
    search_multiple_genes server genes fuel =
      search_multiple_genes_robust server genes (some defaultCriteria) fuel ∧
    search_multiple_genes server genes fuel =
      search_multiple_genes_robust server genes none fuel := by
  exact ⟨rfl, rfl, rfl, rfl⟩

/-- Claim C2: if the transport returns at least one candidate for the first
strategy, the robust search returns that strategy's processed result after
exactly one transport invocation (with the first strategy's query); no later
strategy is attempted. -/
theorem claim_C2_first_success_short_circuit (g : String) (c : SearchCriteria)
    (server : Server) (fuel : Nat) (res : List RawResult)
    (hs : server 0 = HttpResponse.ok res) (hne : res ≠ []) :
    ∃ info, process_ok_response res g = some info ∧
      search_by_gene_name_robust server g (some c) fuel [] =
        (RobustOutcome.finished (some info),
         [build_search_query g
            { organism_id := c.organism_id, reviewed_only := true, exact_match := true,
              max_results := c.max_results, include_synonyms := true }]) := by
  refine ⟨_, process_ok_response_of_ne_nil res g hne, ?_⟩
  unfold search_by_gene_name_robust strategies
  simp only [Option.getD_some]
  rw [try_strategies, search_with_strategy_ok server g _ fuel [] res hs,
    process_ok_response_of_ne_nil res g hne]
  rfl

/-- Claim C2 witness: one reviewed candidate on the first call resolves TP53
with a single transport invocation. -/
theorem claim_C2_witness :
    ∃ info, process_ok_response [sampleRev] "TP53" = some info ∧
      search_by_gene_name_robust (fun _ => HttpResponse.ok [sampleRev]) "TP53"
          (some defaultCriteria) 0 [] =
        (RobustOutcome.finished (some info),
         [build_search_query "TP53"
            { organism_id := defaultCriteria.organism_id, reviewed_only := true,
              exact_match := true, max_results := defaultCriteria.max_results,
              include_synonyms := true }]) :=
  claim_C2_first_success_short_circuit "TP53" defaultCriteria
    (fun _ => HttpResponse.ok [sampleRev]) 0 [sampleRev] rfl (by decide)

/-- Claim C7: on a nonempty strategy response, the engine selects the first
candidate of the list restricted to reviewed entries when any candidate is
reviewed (the original list otherwise), and marks the result ambiguous
exactly when the original candidate count exceeds one. -/
theorem claim_C7_reviewed_first_and_ambiguity (res : List RawResult) (g : String)
    (h : res ≠ []) :
    ∃ info, process_ok_response res g = some info ∧
      info.info = extract_protein_info (restrictToReviewed res).headI g ∧
      restrictToReviewed res =
        (if res.any reviewedFlag then res.filter reviewedFlag else res) ∧
      info.multiple_results_found = decide (1 < res.length) := by
  exact ⟨_, process_ok_response_of_ne_nil res g h, rfl, rfl, rfl⟩

/-- Claim C7 witness: among an unreviewed, a reviewed and another unreviewed
candidate, the reviewed one is selected and the result is ambiguous. -/
theorem claim_C7_witness :
    ∃ info, process_ok_response [sampleA, sampleRev, sampleB] "G1" = some info ∧
      info.info =
        extract_protein_info (restrictToReviewed [sampleA, sampleRev, sampleB]).headI "G1" ∧
      restrictToReviewed [sampleA, sampleRev, sampleB] =
        (if ([sampleA, sampleRev, sampleB] : List RawResult).any reviewedFlag
         then ([sampleA, sampleRev, sampleB] : List RawResult).filter reviewedFlag
         else [sampleA, sampleRev, sampleB]) ∧
      info.multiple_results_found =
        decide (1 < ([sampleA, sampleRev, sampleB] : List RawResult).length) :=
  claim_C7_reviewed_first_and_ambiguity [sampleA, sampleRev, sampleB] "G1" (by decide)

/-- Claim C3: if the transport yields zero candidates for every strategy,
the robust search invokes the transport exactly 4 times — once per strategy,
in waterfall order — and returns no selection; the batch loop then records
the gene with the not-found error entry. -/
theorem claim_C3_exhaustion_not_found (g : String) (c : SearchCriteria)
    (server : Server) (fuel : Nat)
    (hs : ∀ n, server n = HttpResponse.ok [])
    (hstrip : pyStrip g = g) (hne : g ≠ "") :
    search_by_gene_name_robust server g (some c) fuel [] =
      (RobustOutcome.finished none,
       (strategies c).map (fun s => build_search_query g s)) ∧
    ((strategies c).map (fun s => build_search_query g s)).length = 4 ∧
    search_multiple_genes_robust server [g] (some c) fuel =
      (some [(g, GeneEntry.errorEntry notFoundMsg)],
       (strategies c).map (fun s => build_search_query g s)) := by
  have hrob : search_by_gene_name_robust server g (some c) fuel [] =
      (RobustOutcome.finished none,
       (strategies c).map (fun s => build_search_query g s)) := by
    unfold search_by_gene_name_robust
    simpa using try_strategies_empty server g fuel hs (strategies c) []
  refine ⟨hrob, by simp [strategies], ?_⟩
  unfold search_multiple_genes_robust
  simp only [Option.getD_some]
  rw [batch_loop, if_pos (by simp [hstrip, hne]), hstrip, hrob]
  rfl

/-- Claim C3 witness: an always-empty server makes the robust search for
TP53 issue the four waterfall queries and the batch record the not-found
error entry. -/
theorem claim_C3_witness :
    search_by_gene_name_robust emptyServer "TP53" (some defaultCriteria) 0 [] =
      (RobustOutcome.finished none,
       (strategies defaultCriteria).map (fun s => build_search_query "TP53" s)) ∧
    ((strategies defaultCriteria).map
        (fun s => build_search_query "TP53" s)).length = 4 ∧
    search_multiple_genes_robust emptyServer ["TP53"] (some defaultCriteria) 0 =
      (some [("TP53", GeneEntry.errorEntry notFoundMsg)],
       (strategies defaultCriteria).map (fun s => build_search_query "TP53" s)) :=
  claim_C3_exhaustion_not_found "TP53" defaultCriteria emptyServer 0
    (fun _ => rfl) (by decide) (by decide)

/-- Claim C1 counterexample: for a response holding the two unreviewed
candidates P1 and P2, the engine selects P1 as canonical, yet the recorded
alternates information lists *all* accessions including the canonical P1 —
the canonical accession is not excluded. -/
theorem claim_C1_counterexample :
    (process_ok_response [sampleA, sampleB] "GENE1").map
        (fun i => (i.info.accession, i.all_accessions)) =
      some (some "P1", some [some "P1", some "P2"]) ∧
    (some "P1" : Option String) ∈ [some "P1", some "P2"] := by
  exact ⟨by decide, List.mem_cons_self _ _⟩

/-- Claim C1 (amended): in the multiple-results case the result's
all-accessions annotation lists every original candidate's accession in
input order, with no exclusion of the canonical and no de-duplication; in
particular the canonical accession is always among them. -/
theorem claim_C1_amended_all_accessions (res : List RawResult) (g : String)
    (info : AnnotatedProteinInfo) (hlen : 1 < res.length)
    (h : process_ok_response res g = some info) :
    info.all_accessions = some (res.map (fun r => r.primaryAccession)) ∧
    info.info.accession ∈ res.map (fun r => r.primaryAccession) := by
  have hne : res ≠ [] := by
    intro hnil
    rw [hnil] at hlen
    simp at hlen
  rw [process_ok_response_of_ne_nil res g hne] at h
  have hinfo := (Option.some.inj h).symm
  subst hinfo
  constructor
  · simp [hlen]
  · have hmem := restrictToReviewed_headI_mem res hne
    have : (restrictToReviewed res).headI.primaryAccession ∈
        res.map (fun r => r.primaryAccession) :=
      List.mem_map_of_mem (fun r => r.primaryAccession) hmem
    simpa [extract_protein_info] using this

/-- Claim C1 (amended) witness: the concrete two-candidate response P1, P2. -/
theorem claim_C1_amended_witness :
    ({ info :=
         { accession := some "P1", id := none, gene_names := "GENE1",
           protein_name := "Unknown", sequence := none, organism := "Unknown",
           reviewed := false, entry_type := "Unknown" }
       multiple_results_found := true
       total_results := 2
       selected_result := "First result"
       all_accessions := some [some "P1", some "P2"]
       all_protein_names := some ["Unknown", "Unknown"] } :
        AnnotatedProteinInfo).all_accessions =
      some (([sampleA, sampleB] : List RawResult).map (fun r => r.primaryAccession)) ∧
    ({ info :=
         { accession := some "P1", id := none, gene_names := "GENE1",
           protein_name := "Unknown", sequence := none, organism := "Unknown",
           reviewed := false, entry_type := "Unknown" }
       multiple_results_found := true
       total_results := 2
       selected_result := "First result"
       all_accessions := some [some "P1", some "P2"]
       all_protein_names := some ["Unknown", "Unknown"] } :
        AnnotatedProteinInfo).info.accession ∈
      ([sampleA, sampleB] : List RawResult).map (fun r => r.primaryAccession) :=
  claim_C1_amended_all_accessions [sampleA, sampleB] "GENE1" _ (by decide) (by decide)

/-- Claim C5 counterexample: against a server that keeps answering HTTP 429,
the per-gene resolution is still inside the first strategy's retry loop
after 13 identical physical calls — more than the claimed bound of
4 strategies times the default retry ceiling of 3 — and no rate-limited
failure has been produced. -/
theorem claim_C5_counterexample :
    search_by_gene_name_robust always429 "TP53" (some defaultCriteria) 12 [] =
      (RobustOutcome.stillRetrying,
       List.replicate 13 "gene_exact:TP53 AND organism_id:9606 AND reviewed:true") ∧
    13 > 4 * 3 := by
  refine ⟨?_, by decide⟩
  have h := robust_rate_limited always429 "TP53" defaultCriteria
    (fun _ => none) 12 [] (fun _ => rfl)
  simpa using h

/-- Claim C5 (amended): the in-repository 429 handler retries the identical
query via self-recursion with no ceiling — for every retry budget, a server
that keeps answering 429 leaves the resolution still retrying after
budget + 1 identical physical calls, and no RateLimited failure value is
ever produced. -/
theorem claim_C5_amended_unbounded_retry (server : Server) (g : String)
    (c : SearchCriteria) (ra : Nat → Option Nat) (fuel : Nat)
    (h : ∀ n, server n = HttpResponse.rateLimited (ra n)) :
    search_by_gene_name_robust server g (some c) fuel [] =
      (RobustOutcome.stillRetrying,
       List.replicate (fuel + 1)
         (build_search_query g
           { organism_id := c.organism_id, reviewed_only := true, exact_match := true,
             max_results := c.max_results, include_synonyms := true })) := by
  simpa using robust_rate_limited server g c ra fuel [] h

/-- Claim C5 (amended) witness: five retries in, the TP53 resolution is
still retrying with six identical calls issued. -/
theorem claim_C5_amended_witness :
    search_by_gene_name_robust always429 "TP53" (some defaultCriteria) 5 [] =
      (RobustOutcome.stillRetrying,
       List.replicate 6
         (build_search_query "TP53"
           { organism_id := defaultCriteria.organism_id, reviewed_only := true,
             exact_match := true, max_results := defaultCriteria.max_results,
             include_synonyms := true })) :=
  claim_C5_amended_unbounded_retry always429 "TP53" defaultCriteria
    (fun _ => none) 5 (fun _ => rfl)

/-- Claim C6 counterexample: for the blank gene symbol the per-gene robust
search performs four transport calls (one per strategy, with the blank spliced
into each query) instead of rejecting the input before any network call. -/
theorem claim_C6_counterexample :
    search_by_gene_name_robust emptyServer "" (some defaultCriteria) 0 [] =
      (RobustOutcome.finished none,
       ["gene_exact: AND organism_id:9606 AND reviewed:true",
        "gene_exact: AND organism_id:9606",
        "gene: AND organism_id:9606 AND reviewed:true",
        "gene: AND organism_id:9606"]) ∧
    (["gene_exact: AND organism_id:9606 AND reviewed:true",
      "gene_exact: AND organism_id:9606",
      "gene: AND organism_id:9606 AND reviewed:true",
      "gene: AND organism_id:9606"] : List String).length = 4 := by
  refine ⟨?_, rfl⟩
  have h := try_strategies_empty emptyServer "" 0 (fun _ => rfl)
    (strategies defaultCriteria) []
  unfold search_by_gene_name_robust
  simp only [Option.getD_some]
  rw [h]
  rfl

/-- Claim C6 (amended): the per-gene operation performs no blank-input
validation; blank symbols are instead handled by the batch loop, which skips
every input that strips to the empty string — producing no report entry, no
error record, and no transport call. -/
theorem claim_C6_amended_blank_skipped (genes : List String) (server : Server)
    (c : SearchCriteria) (fuel : Nat)
    (h : ∀ g ∈ genes, pyStrip g = "") :
    search_multiple_genes_robust server genes (some c) fuel = (some [], []) := by
  unfold search_multiple_genes_robust
  simpa using batch_loop_blank server c fuel genes [] [] h

/-- Claim C6 (amended) witness: a batch of blank and whitespace-only gene
symbols yields an empty report with zero transport calls. -/
theorem claim_C6_amended_witness :
    search_multiple_genes_robust emptyServer ["", "   ", "\t"]
        (some defaultCriteria) 0 = (some [], []) :=
  claim_C6_amended_blank_skipped ["", "   ", "\t"] emptyServer defaultCriteria 0
    (by decide)

/-- Claim C8: whenever the batch completes, its report holds exactly one
entry per unique non-blank (post-strip) input gene symbol, in first-seen
input order, with no duplicate keys, and every such symbol is covered by
some entry (per-gene failures are recorded as entries, never dropped). -/
theorem claim_C8_batch_report_keys (genes : List String) (server : Server)
    (c : SearchCriteria) (fuel : Nat) (res : List (String × GeneEntry))
    (trace : List String)
    (h : search_multiple_genes_robust server genes (some c) fuel = (some res, trace)) :
    res.map Prod.fst = dedupedGeneKeys genes [] ∧
    (res.map Prod.fst).Nodup ∧
    ∀ g' ∈ dedupedGeneKeys genes [], ∃ e, (g', e) ∈ res := by
  unfold search_multiple_genes_robust at h
  simp only [Option.getD_some] at h
  have hkeys := batch_loop_keys server c fuel genes [] [] res trace h
  simp only [List.map_nil, List.nil_append] at hkeys
  refine ⟨hkeys, ?_, ?_⟩
  · rw [hkeys]
    exact (dedupedGeneKeys_spec genes []).2
  · intro g' hg'
    rw [← hkeys] at hg'
    obtain ⟨p, hp, hfst⟩ := List.mem_map.mp hg'
    subst hfst
    exact ⟨p.2, hp⟩

/-- Claim C8 witness: duplicates (up to stripping) and blanks collapse to
one entry per unique non-blank symbol, in first-seen order. -/
theorem claim_C8_witness :
    (([("TP53", GeneEntry.errorEntry notFoundMsg),
       ("BRCA1", GeneEntry.errorEntry notFoundMsg)] :
        List (String × GeneEntry)).map Prod.fst) =
      dedupedGeneKeys ["TP53", " TP53", "", "BRCA1"] [] ∧
    (([("TP53", GeneEntry.errorEntry notFoundMsg),
       ("BRCA1", GeneEntry.errorEntry notFoundMsg)] :
        List (String × GeneEntry)).map Prod.fst).Nodup ∧
    ∀ g' ∈ dedupedGeneKeys ["TP53", " TP53", "", "BRCA1"] [],
      ∃ e, (g', e) ∈ ([("TP53", GeneEntry.errorEntry notFoundMsg),
                       ("BRCA1", GeneEntry.errorEntry notFoundMsg)] :
                        List (String × GeneEntry)) :=
  claim_C8_batch_report_keys ["TP53", " TP53", "", "BRCA1"] emptyServer
    defaultCriteria 0
    [("TP53", GeneEntry.errorEntry notFoundMsg),
     ("BRCA1", GeneEntry.errorEntry notFoundMsg)]
    ["gene_exact:TP53 AND organism_id:9606 AND reviewed:true",
     "gene_exact:TP53 AND organism_id:9606",
     "gene:TP53 AND organism_id:9606 AND reviewed:true",
     "gene:TP53 AND organism_id:9606",
     "gene_exact:BRCA1 AND organism_id:9606 AND reviewed:true",
     "gene_exact:BRCA1 AND organism_id:9606",
     "gene:BRCA1 AND organism_id:9606 AND reviewed:true",
     "gene:BRCA1 AND organism_id:9606"]
    (by decide)

end UniProt
